import Mathlib

/-!
Verification of the reminder-lifecycle engine, conversation state machine and
notification fan-out of the healthcare chatbot backend.

The Python source is embedded shallowly: machine state (database rows, the
conversation dict, the channel registry, the delivery queue) is passed
explicitly, fallible code returns `Except String`, and Python `datetime.time`
comparison is lexicographic on (hour, minute).  Dates are modelled as day
numbers (`Nat`); "tomorrow" is a parameter so that wall-clock reads become
explicit inputs.
-/

namespace Aibot

/-- Time of day with the fields the code uses (`pendulum.Time(hour, minute)`). -/
structure TimeOfDay where
  hour : Nat
  minute : Nat
deriving Repr, DecidableEq, Inhabited

/-- Python `datetime.time` comparison: lexicographic on (hour, minute). -/
def TimeOfDay.le (a b : TimeOfDay) : Bool :=
  Nat.blt a.hour b.hour || (a.hour == b.hour && Nat.ble a.minute b.minute)

/-- `ReminderStatus` enum from `src/models/schemas/reminder.py`. -/
inductive ReminderStatus where
  | INACTIVE
  | ACTIVE
deriving Repr, DecidableEq, Inhabited

/-- A persisted reminder row (`src/models/db/reminder.py`):
prescription id, time of day, optional date, and status. -/
structure Reminder where
  prescription_id : Nat
  reminder_time : TimeOfDay
  reminder_date : Option Nat
  status : ReminderStatus
deriving Repr, DecidableEq, Inhabited

/-- A prescription row, restricted to the fields the reminder engine reads. -/
structure Prescription where
  prescription_id : Nat
  medication_name : String
  frequency : Nat
  duration : Nat
  is_active : Bool
deriving Repr, DecidableEq, Inhabited

/-- `generate_reminder_times` (`repository/crud/reminder.py`, lines 59-80):
the fixed table of daily times for frequency 1, 2, 3; `ValueError` otherwise. -/
def generate_reminder_times (frequency : Nat) : Except String (List TimeOfDay) :=
  if frequency = 1 then
    .ok [⟨9, 0⟩]
  else if frequency = 2 then
    .ok [⟨9, 0⟩, ⟨18, 0⟩]
  else if frequency = 3 then
    .ok [⟨9, 0⟩, ⟨13, 0⟩, ⟨18, 0⟩]
  else
    .error "ValueError: Unsupported frequency value: {frequency}"

/-- The `ReminderCreate` record built for each (day, time) pair in
`create_reminders_for_prescription`: inactive, date `None`. -/
def inactive_reminder (p : Prescription) (t : TimeOfDay) : Reminder :=
  { prescription_id := p.prescription_id
    reminder_time := t
    reminder_date := none
    status := ReminderStatus.INACTIVE }

/-- The `for day in range(duration)` loop of `create_reminders_for_prescription`
(lines 38-48): each iteration calls `generate_reminder_times(frequency)` and
adds one inactive reminder per returned time.  The accumulator is the list of
rows added to the session so far. -/
def create_reminders_loop (p : Prescription) : Nat → List Reminder → Except String (List Reminder)
  | 0, acc => .ok acc
  | d + 1, acc =>
    match generate_reminder_times p.frequency with
    | .error e => .error e
    | .ok ts => create_reminders_loop p d (acc ++ ts.map (inactive_reminder p))

/-- `create_reminders_for_prescription` (lines 16-56): runs the day loop over
`prescription.duration` days.  On a `ValueError` from the generator the
transaction is rolled back and the error re-raised, so the error result models
"no reminders persisted". -/
def create_reminders_for_prescription (p : Prescription) : Except String (List Reminder) :=
  create_reminders_loop p p.duration []

/-- The mutation applied to one reminder inside `activate_reminders`
(lines 114-116): date `tomorrow + day`, status ACTIVE. -/
def activate_assign (tomorrow day : Nat) (r : Reminder) : Reminder :=
  { r with reminder_date := some (tomorrow + day), status := ReminderStatus.ACTIVE }

/-- One iteration of the inner `for _ in range(frequency)` loop of
`activate_reminders` (lines 112-117): state is (reminder list, reminder_index);
when `reminder_index < reminders_count` the reminder at that index is assigned
a date for the current `day` and the index advances. -/
def activate_step (tomorrow count : Nat) (st : List Reminder × Nat) (day : Nat) :
    List Reminder × Nat :=
  if st.2 < count then
    (st.1.set st.2 (activate_assign tomorrow day (st.1.getD st.2 default)), st.2 + 1)
  else st

/-- The sequence of `day` values visited by the nested loops
`for day in range(duration): for _ in range(frequency)`. -/
def activate_days (frequency duration : Nat) : List Nat :=
  (List.range duration).flatMap (fun day => List.replicate frequency day)

/-- `activate_reminders` (lines 83-126): `current_date` is tomorrow,
`reminders_count` is read once, and the nested loops walk the day sequence
threading (list, index).  A count mismatch is only logged (line 107-108);
control always proceeds to the loops. -/
def activate_reminders (tomorrow : Nat) (reminders : List Reminder) (p : Prescription) :
    List Reminder :=
  let count := reminders.length
  ((activate_days p.frequency p.duration).foldl (activate_step tomorrow count) (reminders, 0)).1

/-- Python `%`: raises `ZeroDivisionError` when the right operand is zero. -/
def pymod (a b : Nat) : Except String Nat :=
  if b = 0 then .error "ZeroDivisionError: integer modulo by zero"
  else .ok (a % b)

/-- The `for i, reminder in enumerate(reminders)` loop of
`update_reminder_times` (lines 149-151): `time_index = i % new_times_count`
(Python `%`, so an empty time list raises), and the reminder keeps every field
except `reminder_time`, which becomes `new_times[time_index]`. -/
def update_times_loop (new_times : List TimeOfDay) : Nat → List Reminder → Except String (List Reminder)
  | _, [] => .ok []
  | i, r :: rest =>
    match pymod i new_times.length with
    | .error e => .error e
    | .ok ti =>
      match update_times_loop new_times (i + 1) rest with
      | .error e => .error e
      | .ok rest2 => .ok ({ r with reminder_time := new_times.getD ti default } :: rest2)

/-- `update_reminder_times` (lines 128-161) applied to the reminders selected
for the prescription id, already ordered by `reminder_date` as in the query.
The `if reminders:` guard makes the empty case a logged no-op. -/
def update_reminder_times (reminders : List Reminder) (new_times : List TimeOfDay) :
    Except String (List Reminder) :=
  if reminders.isEmpty then .ok reminders
  else update_times_loop new_times 0 reminders

/-! ### The periodic sweep (`src/scheduler/reminder_tasks.py`) -/

/-- State touched by one sweep: the reminder and prescription tables plus the
in-process delivery queue (`reminder_queue`). -/
structure SweepState where
  reminders : List Reminder
  prescriptions : List Prescription
  queue : List String
deriving Repr, DecidableEq, Inhabited

/-- `db.get(PrescriptionModel, reminder.prescription_id)` — primary-key lookup. -/
def find_prescription (ps : List Prescription) (pid : Nat) : Option Prescription :=
  ps.find? (fun p => p.prescription_id == pid)

/-- The SQL filter of the sweep query (lines 43-48): `reminder_date <= today`
(a NULL date never satisfies the comparison), `reminder_time <= now`, and
status ACTIVE. -/
def reminder_due (today : Nat) (nowT : TimeOfDay) (r : Reminder) : Bool :=
  (match r.reminder_date with
   | some d => Nat.ble d today
   | none => false)
  && TimeOfDay.le r.reminder_time nowT
  && (r.status == ReminderStatus.ACTIVE)

/-- The `for reminder in active_reminders` loop (lines 52-56): look up each
reminder's prescription and collect `prescription.medication_name`.  A missing
prescription is the Python `AttributeError` on `None.medication_name`. -/
def collect_names (ps : List Prescription) : List Reminder → Except String (List String)
  | [] => .ok []
  | r :: rest =>
    match find_prescription ps r.prescription_id with
    | none => .error "AttributeError: NoneType has no attribute medication_name"
    | some p =>
      match collect_names ps rest with
      | .error e => .error e
      | .ok names => .ok (p.medication_name :: names)

/-- Modelled from the spec: `enqueue_reminders` lives in
`src/repository/crud/chat.py`, which is not part of the provided sources.  Per
§4.3 the Delivery Queue is "an unbounded FIFO of ready messages" and `push`
appends; `enqueue_reminders(names)` pushes each name in order.  The queue is an
ordinary in-process structure, so a push is effective immediately and is not
part of any database transaction. -/
def enqueue_reminders (queue : List String) (names : List String) : List String :=
  queue ++ names

/-- `trigger_reminder_task` (lines 17-72) as a state transformer; `commitOk`
says whether the final `db.commit()` (line 61) succeeds.  Order of effects,
as in the source: select due reminders, collect medication names (session-local
deletes pending), enqueue the names if any, then commit.  On any raised error
`db.rollback()` undoes the uncommitted deletes, but a queue push already made
is not transactional and stays.  Result: (state after the invocation, raised
error if any). -/
def trigger_reminder_task (today : Nat) (nowT : TimeOfDay) (commitOk : Bool)
    (st : SweepState) : SweepState × Option String :=
  let selected := st.reminders.filter (reminder_due today nowT)
  match collect_names st.prescriptions selected with
  | .error e => (st, some e)
  | .ok names =>
    let queue2 := if names.isEmpty then st.queue else enqueue_reminders st.queue names
    if commitOk then
      ({ reminders := st.reminders.filter (fun r => !(reminder_due today nowT r)),
         prescriptions := st.prescriptions,
         queue := queue2 }, none)
    else
      ({ st with queue := queue2 }, some "commit failed")

/-! ### Conversation state (`src/api/routes/chat.py`) -/

/-- The fields of a doctor record the chat route reads. -/
structure Doctor where
  user_id : Nat
  first_name : String
  last_name : String
  email : String
deriving Repr, DecidableEq, Inhabited

/-- One entry of `conversation_state["prescriptions"]`:
`{"prescription_id": ..., "details": medication_name}`. -/
structure PendingPrescription where
  prescription_id : Nat
  details : String
deriving Repr, DecidableEq, Inhabited

/-- The module-level `conversation_state` dict: `stage` is always present;
the other keys may be absent (`Option`), and `dict.pop(k, None)` sets them
to `none`. -/
structure ConversationState where
  stage : String
  doctors : Option (List Doctor)
  selected_doctor : Option Doctor
  appointment_id : Option Nat
  prescriptions : Option (List PendingPrescription)
  prescription_id : Option Nat
deriving Repr, DecidableEq, Inhabited

/-- The chatbot reply, identified by its `ChatbotResponses` constant name
(`src/utilities/constants.py`); the claims only distinguish which message was
sent, not its prose. -/
inductive ChatbotReply where
  | NEW_CONVERSATION
  | APPOINTMENT_BOOKED
  | INVALID_SLOT_SELECTION
  | INVALID_INPUT
deriving Repr, DecidableEq, Inhabited

/-- The reset guard of `chat_with_bot` (line 76) on the stripped, lowered
user message. -/
def chat_reset_request (user_message : String) : Bool :=
  user_message == "reset" || user_message == "start over"

/-- The reset branch of `chat_with_bot` (lines 76-83): when the message is
"reset" or "start over", set `stage` to "general", pop `doctors`,
`selected_doctor` and `appointment_id`, and reply `NEW_CONVERSATION`.
Returns `none` when the guard fails and control falls through to the stage
dispatch (not modelled here). -/
def chat_with_bot_reset (user_message : String) (st : ConversationState) :
    Option (ConversationState × ChatbotReply) :=
  if chat_reset_request user_message then
    some ({ st with
              stage := "general"
              doctors := none
              selected_doctor := none
              appointment_id := none },
          ChatbotReply.NEW_CONVERSATION)
  else
    none

/-- A time-slot row, restricted to the fields `handle_slot_selection` uses. -/
structure TimeSlot where
  time_slot_id : Nat
  start_time : TimeOfDay
  end_time : TimeOfDay
deriving Repr, DecidableEq, Inhabited

/-- The `AppointmentCreate` payload passed to `book_appointment`
(chat.py lines 277-283). -/
structure Appointment where
  doctor_id : Nat
  time_slot_id : Nat
  patient_id : Nat
  appointment_date : Nat
deriving Repr, DecidableEq, Inhabited

/-- What one call to `handle_slot_selection` did: the conversation state
afterwards, the (slot id, patient id) passed to `update_time_slot_with_patient`
if any, the appointment created if any, and the reply sent. -/
structure SlotSelectionOutcome where
  state : ConversationState
  reserved_slot : Option (Nat × Nat)
  booked : Option Appointment
  reply : ChatbotReply
deriving Repr, DecidableEq, Inhabited

/-- `handle_slot_selection` (chat.py lines 245-303) for a message that parses
as the integer `n` (the non-integer `ValueError` branch replies INVALID_INPUT
and is outside claim C6's scope).  `selected_slot_index = n - 1`; if
`0 <= index < len(available_slots)` the slot is reserved for the patient, an
appointment dated `today` is created and the stage becomes "general"; otherwise
the reply is INVALID_SLOT_SELECTION and nothing changes.  Reading
`conversation_state["selected_doctor"]` raises `KeyError` when absent. -/
def handle_slot_selection (n : Int) (available_slots : List TimeSlot)
    (today patient_id : Nat) (st : ConversationState) :
    Except String SlotSelectionOutcome :=
  match st.selected_doctor with
  | none => .error "KeyError: selected_doctor"
  | some doc =>
    let selected_slot_index : Int := n - 1
    if 0 ≤ selected_slot_index ∧ selected_slot_index < (available_slots.length : Int) then
      let slot := available_slots.getD selected_slot_index.toNat default
      .ok { state := { st with stage := "general" }
            reserved_slot := some (slot.time_slot_id, patient_id)
            booked := some { doctor_id := doc.user_id
                             time_slot_id := slot.time_slot_id
                             patient_id := patient_id
                             appointment_date := today }
            reply := ChatbotReply.APPOINTMENT_BOOKED }
    else
      .ok { state := st
            reserved_slot := none
            booked := none
            reply := ChatbotReply.INVALID_SLOT_SELECTION }

/-! ### Notification fan-out (`src/utilities/notification_service.py`) -/

/-- `active_connections`: doctor id ↦ set of websocket channels (channels are
identified by `Nat` handles; the list is kept duplicate-free by `set_add`). -/
abbrev Registry := List (Nat × List Nat)

/-- `doctor_id in self.active_connections` / `self.active_connections[doctor_id]`. -/
def Registry.lookup (reg : Registry) (d : Nat) : Option (List Nat) :=
  (reg.find? (fun e => e.1 == d)).map (fun e => e.2)

/-- Replace the channel set stored under key `d`. -/
def Registry.update (reg : Registry) (d : Nat) (cs : List Nat) : Registry :=
  reg.map (fun e => if e.1 == d then (e.1, cs) else e)

/-- Python `set.add`: no effect when the element is already present. -/
def set_add (cs : List Nat) (c : Nat) : List Nat :=
  if cs.contains c then cs else cs ++ [c]

/-- `NotificationManager.connect` (lines 25-42): create the doctor's set
lazily, then add the websocket. -/
def connect (reg : Registry) (d c : Nat) : Registry :=
  match reg.lookup d with
  | none => reg ++ [(d, set_add [] c)]
  | some cs => reg.update d (set_add cs c)

/-- `NotificationManager.disconnect` (lines 44-61): if the doctor has the
websocket, remove it (`set.remove`); if the set becomes empty, delete the
doctor's entry. -/
def disconnect (reg : Registry) (d c : Nat) : Registry :=
  match reg.lookup d with
  | none => reg
  | some cs =>
    if cs.contains c then
      let cs2 := cs.erase c
      if cs2.isEmpty then
        reg.filter (fun e => !(e.1 == d))
      else
        reg.update d cs2
    else
      reg

/-- The notification payload built in `send_notification` (lines 76-80). -/
structure Envelope where
  message : String
  doctor_id : Nat
  timestamp : Nat
deriving Repr, DecidableEq, Inhabited

/-- The `for connection in self.active_connections[doctor_id]` loop
(lines 85-90): a send that raises is caught and logged, and the loop
continues with the remaining connections. -/
def send_loop (failing : Nat → Bool) (env : Envelope) : List Nat → List (Nat × Envelope)
  | [] => []
  | c :: rest =>
    if failing c then send_loop failing env rest
    else (c, env) :: send_loop failing env rest

/-- `NotificationManager.send_notification` (lines 63-92): with no entry for
the doctor it logs a warning and does nothing; otherwise it builds the
timestamped envelope once and attempts a send on every registered channel.
`failing c = true` models `connection.send_json` raising for channel `c`;
`nowTs` is `datetime.now()`.  Returns (deliveries made, whether the no-op
branch was taken); the function never raises. -/
def send_notification (reg : Registry) (failing : Nat → Bool) (nowTs : Nat)
    (d : Nat) (message : String) : List (Nat × Envelope) × Bool :=
  match reg.lookup d with
  | none => ([], true)
  | some cs =>
    (send_loop failing { message := message, doctor_id := d, timestamp := nowTs } cs, false)

/-- A connect or disconnect call on the registry. -/
inductive RegistryOp where
  | conn (d c : Nat)
  | disc (d c : Nat)
deriving Repr, DecidableEq

/-- Apply one registry operation. -/
def RegistryOp.apply (reg : Registry) : RegistryOp → Registry
  | .conn d c => connect reg d c
  | .disc d c => disconnect reg d c

/-- Run a sequence of connect/disconnect operations from the empty registry
(the `NotificationManager.__init__` state). -/
def run_ops (ops : List RegistryOp) : Registry :=
  ops.foldl RegistryOp.apply []

/-- The registry invariant: no recipient key maps to an empty channel set. -/
def RegistryWF (reg : Registry) : Prop :=
  ∀ e ∈ reg, e.2 ≠ []

/-! ### Prescription flag frame effect (`repository/crud` + chat handler) -/

/-- Database state for the prescription/reminder tables. -/
structure DbState where
  prescriptions : List Prescription
  reminders : List Reminder
deriving Repr, DecidableEq, Inhabited

/-- `mark_prescription_inactive` (`repository/crud/prescription.py`,
lines 183-222): `UPDATE prescriptions SET is_active = false WHERE
prescription_id = pid`, commit, and return the updated row (`none` when no row
matched). -/
def mark_prescription_inactive (st : DbState) (pid : Nat) : DbState × Option Prescription :=
  let updated := st.prescriptions.map
    (fun p => if p.prescription_id == pid then { p with is_active := false } else p)
  ({ st with prescriptions := updated },
   updated.find? (fun p => p.prescription_id == pid))

/-- `create_reminders_for_prescription` acting on the database state.  After
the reminder inserts are committed (line 50), line 51 reads
`mark_prescription_inactive(db, prescription.prescription_id)` with no
`await`: in Python the coroutine object is created and immediately discarded,
so its body never executes and the prescriptions table is untouched.  The
un-awaited call therefore contributes no state change here. -/
def create_reminders_db (st : DbState) (p : Prescription) : Except String DbState :=
  match create_reminders_for_prescription p with
  | .error e => .error e
  | .ok rs => .ok { st with reminders := st.reminders ++ rs }

/-! ## Theorems -/

/-- Elementwise description of the `update_reminder_times` enumeration loop:
with a non-empty time list it succeeds and reminder `j` (counting from start
index `i`) keeps all fields except its time, which becomes
`new_times[(i + j) % len]`. -/
theorem update_times_loop_spec (ts : List TimeOfDay) (hk : ts.length ≠ 0) :
    ∀ (rs : List Reminder) (i : Nat),
      ∃ out, update_times_loop ts i rs = .ok out ∧ out.length = rs.length ∧
        ∀ j, j < rs.length →
          out.getD j default =
            { (rs.getD j default) with reminder_time := ts.getD ((i + j) % ts.length) default } := by
  intro rs
  induction rs with
  | nil =>
    intro i
    exact ⟨[], rfl, rfl, fun j hj => absurd hj (by simp)⟩
  | cons r rest ih =>
    intro i
    obtain ⟨out, hout, hlen, hget⟩ := ih (i + 1)
    have hp : pymod i ts.length = .ok (i % ts.length) := by
      unfold pymod; rw [if_neg hk]
    refine ⟨{ r with reminder_time := ts.getD (i % ts.length) default } :: out, ?_, ?_, ?_⟩
    · simp only [update_times_loop, hp, hout]
    · simp [hlen]
    · intro j hj
      cases j with
      | zero => simp
      | succ j' =>
        have hrec := hget j' (by simpa using hj)
        have harith : i + (j' + 1) = (i + 1) + j' := by omega
        simp only [List.getD_cons_succ, hrec, harith]

/-- Claim C5: `update_reminder_times` with a non-empty list of `k` new times
stripes them cyclically over the reminders ordered by date — reminder `i`
gets time `newTimes[i mod k]` and keeps all other fields, in particular its
date — and with no reminders it is a no-op that returns the empty set
unchanged. -/
theorem claim_C5 (rs : List Reminder) (ts : List TimeOfDay) (hts : ts ≠ []) :
    (∃ out, update_reminder_times rs ts = .ok out ∧ out.length = rs.length ∧
      ∀ i, i < rs.length →
        out.getD i default =
          { (rs.getD i default) with reminder_time := ts.getD (i % ts.length) default })
    ∧ update_reminder_times [] ts = .ok [] := by
  have hk : ts.length ≠ 0 := by simpa [List.length_eq_zero] using hts
  constructor
  · cases rs with
    | nil => exact ⟨[], rfl, rfl, fun i hi => absurd hi (by simp)⟩
    | cons r rest =>
      obtain ⟨out, hout, hlen, hget⟩ := update_times_loop_spec ts hk (r :: rest) 0
      refine ⟨out, ?_, hlen, ?_⟩
      · unfold update_reminder_times
        rw [if_neg (by simp)]
        exact hout
      · intro i hi
        simpa using hget i hi
  · rfl

/-- Witness for C5 at a concrete input. -/
theorem claim_C5_witness :
    update_reminder_times [] [⟨8, 0⟩] = .ok [] :=
  (claim_C5 [] [⟨8, 0⟩] (by simp)).2

/-- Claim C10: `update_reminder_times` is not total on its time-list argument:
with at least one reminder for the prescription and an empty `new_times`,
computing `i % 0` raises `ZeroDivisionError`. -/
theorem claim_C10 (rs : List Reminder) (h : rs ≠ []) :
    update_reminder_times rs [] = .error "ZeroDivisionError: integer modulo by zero" := by
  cases rs with
  | nil => exact absurd rfl h
  | cons r rest => rfl

/-- Witness for C10 at a concrete input. -/
theorem claim_C10_witness :
    update_reminder_times [⟨1, ⟨9, 0⟩, none, ReminderStatus.INACTIVE⟩] []
      = .error "ZeroDivisionError: integer modulo by zero" :=
  claim_C10 [⟨1, ⟨9, 0⟩, none, ReminderStatus.INACTIVE⟩] (by simp)

/-- The send loop delivers to exactly the non-failing channels, in order. -/
theorem send_loop_eq (failing : Nat → Bool) (env : Envelope) :
    ∀ cs : List Nat, send_loop failing env cs =
      (cs.filter (fun c => !failing c)).map (fun c => (c, env)) := by
  intro cs
  induction cs with
  | nil => rfl
  | cons c rest ih =>
    by_cases h : failing c = true
    · simp [send_loop, h, ih]
    · simp [send_loop, h, ih]

/-- Claim C7: `send_notification` with no registered channels is a no-op that
raises nothing; otherwise it sends the envelope `{message, doctor_id,
timestamp}` to every registered channel, and a failing channel is skipped
without aborting the remaining sends (delivery = all non-failing channels). -/
theorem claim_C7 (reg : Registry) (failing : Nat → Bool) (nowTs d : Nat) (message : String) :
    (Registry.lookup reg d = none →
      send_notification reg failing nowTs d message = ([], true))
    ∧ (∀ cs, Registry.lookup reg d = some cs →
        send_notification reg failing nowTs d message =
          ((cs.filter (fun c => !failing c)).map
            (fun c => (c, { message := message, doctor_id := d, timestamp := nowTs })), false)) := by
  constructor
  · intro h
    simp [send_notification, h]
  · intro cs h
    simp [send_notification, h, send_loop_eq]

/-- Witness for C7: a doctor with zero connected channels gets a no-op. -/
theorem claim_C7_witness :
    send_notification [] (fun _ => false) 0 1 "booked" = ([], true) :=
  (claim_C7 [] (fun _ => false) 0 1 "booked").1 rfl

/-- Claim C9: scheduling placeholder reminders leaves the prescriptions table
— in particular every `is_active` flag — unchanged, because the
`mark_prescription_inactive` coroutine on line 51 is never awaited; the flag
flips only when `mark_prescription_inactive` is actually run (awaited), as the
dialogue's activate-reminders handler does. -/
theorem claim_C9 :
    (∀ st p st2, create_reminders_db st p = .ok st2 → st2.prescriptions = st.prescriptions)
    ∧ (∀ st pid q, q ∈ st.prescriptions → q.prescription_id = pid →
        { q with is_active := false } ∈ (mark_prescription_inactive st pid).1.prescriptions) := by
  constructor
  · intro st p st2 h
    unfold create_reminders_db at h
    cases hc : create_reminders_for_prescription p with
    | error e => rw [hc] at h; cases h
    | ok rs =>
      rw [hc] at h
      have h2 : ({ st with reminders := st.reminders ++ rs } : DbState) = st2 := by
        simpa using h
      rw [← h2]
  · intro st pid q hq hid
    have hf : ({ q with is_active := false } : Prescription)
        = (fun p => if p.prescription_id == pid then { p with is_active := false } else p) q := by
      simp [hid]
    rw [hf]
    simp only [mark_prescription_inactive]
    exact List.mem_map_of_mem _ hq

/-- Witness for C9 at a concrete database state. -/
theorem claim_C9_witness :
    (⟨[⟨1, "Amox", 1, 1, true⟩], [⟨1, ⟨9, 0⟩, none, ReminderStatus.INACTIVE⟩]⟩ : DbState).prescriptions
        = [⟨1, "Amox", 1, 1, true⟩]
    ∧ ({ (⟨1, "Amox", 1, 1, true⟩ : Prescription) with is_active := false })
        ∈ (mark_prescription_inactive ⟨[⟨1, "Amox", 1, 1, true⟩], []⟩ 1).1.prescriptions :=
  ⟨claim_C9.1 ⟨[⟨1, "Amox", 1, 1, true⟩], []⟩ ⟨1, "Amox", 1, 1, true⟩
      ⟨[⟨1, "Amox", 1, 1, true⟩], [⟨1, ⟨9, 0⟩, none, ReminderStatus.INACTIVE⟩]⟩ rfl,
   claim_C9.2 ⟨[⟨1, "Amox", 1, 1, true⟩], []⟩ 1 ⟨1, "Amox", 1, 1, true⟩ (by simp) rfl⟩

/-- Claim C3, evaluated at the failing input: one due Active reminder, a sweep
whose final `db.commit()` fails.  The rollback restores the reminder table,
yet the medication name was already pushed onto the delivery queue (the
enqueue on line 59 precedes the commit on line 61 and is not transactional),
so a name reached the queue for a reminder that remains in the store — the
sweep is not atomic. -/
theorem claim_C3_divergence :
    (trigger_reminder_task 10 ⟨9, 0⟩ false
        ⟨[⟨1, ⟨8, 0⟩, some 9, ReminderStatus.ACTIVE⟩], [⟨1, "Amoxicillin", 2, 3, false⟩], []⟩).1.reminders
      = [⟨1, ⟨8, 0⟩, some 9, ReminderStatus.ACTIVE⟩]
    ∧ (trigger_reminder_task 10 ⟨9, 0⟩ false
        ⟨[⟨1, ⟨8, 0⟩, some 9, ReminderStatus.ACTIVE⟩], [⟨1, "Amoxicillin", 2, 3, false⟩], []⟩).1.queue
      = ["Amoxicillin"]
    ∧ (trigger_reminder_task 10 ⟨9, 0⟩ false
        ⟨[⟨1, ⟨8, 0⟩, some 9, ReminderStatus.ACTIVE⟩], [⟨1, "Amoxicillin", 2, 3, false⟩], []⟩).2
      = some "commit failed" :=
  ⟨rfl, rfl, rfl⟩

/-- Counterexample to claim C4: resetting from a state holding a pending
prescription queue leaves `conversation_state["prescriptions"]` in place —
the reset branch pops only `doctors`, `selected_doctor` and `appointment_id`,
so the pending-prescription fields are not absent afterwards. -/
theorem claim_C4_counterexample :
    (chat_with_bot_reset "reset"
        ⟨"update_reminder_prompt", none, none, none, some [⟨1, "Amoxicillin"⟩], some 1⟩).map
      (fun out => out.1.prescriptions) = some (some [⟨1, "Amoxicillin"⟩])
    ∧ some (some [(⟨1, "Amoxicillin"⟩ : PendingPrescription)])
      ≠ some (none : Option (List PendingPrescription)) :=
  ⟨rfl, by simp⟩

/-- Claim C4 as amended: for every state and every utterance in
{"reset", "start over"} the entry point sets the stage to "general", clears
the candidate-doctor, selected-doctor and appointment fields, and replies with
the new-conversation message — but it leaves the pending-prescription fields
(`prescriptions`, `prescription_id`) unchanged. -/
theorem claim_C4 (st : ConversationState) (msg : String)
    (h : msg = "reset" ∨ msg = "start over") :
    chat_with_bot_reset msg st =
      some ({ st with
                stage := "general"
                doctors := none
                selected_doctor := none
                appointment_id := none },
            ChatbotReply.NEW_CONVERSATION) := by
  rcases h with h | h <;> subst h <;> rfl

/-- Witness for C4 at a concrete state and utterance. -/
theorem claim_C4_witness :
    chat_with_bot_reset "start over"
        ⟨"awaiting_slot_selection", some [], some ⟨3, "Ada", "Lovelace", "a@b"⟩, some 4, none, none⟩
      = some (⟨"general", none, none, none, none, none⟩, ChatbotReply.NEW_CONVERSATION) :=
  claim_C4 ⟨"awaiting_slot_selection", some [], some ⟨3, "Ada", "Lovelace", "a@b"⟩, some 4, none, none⟩
    "start over" (Or.inr rfl)

/-- Counterexample to claim C6: a successful in-range slot selection (index 2
of 3 slots) books the appointment and moves the stage to "general", yet the
`selected_doctor` field is still present afterwards — the handler never clears
it. -/
theorem claim_C6_counterexample :
    handle_slot_selection 2
        [⟨10, ⟨9, 0⟩, ⟨10, 0⟩⟩, ⟨11, ⟨10, 0⟩, ⟨11, 0⟩⟩, ⟨12, ⟨11, 0⟩, ⟨12, 0⟩⟩]
        20 7
        ⟨"awaiting_slot_selection", none, some ⟨3, "Ada", "Lovelace", "a@b"⟩, none, none, none⟩
      = .ok { state := ⟨"general", none, some ⟨3, "Ada", "Lovelace", "a@b"⟩, none, none, none⟩
              reserved_slot := some (11, 7)
              booked := some ⟨3, 11, 7, 20⟩
              reply := ChatbotReply.APPOINTMENT_BOOKED }
    ∧ (some (⟨3, "Ada", "Lovelace", "a@b"⟩ : Doctor) ≠ none) := by
  exact ⟨rfl, by simp⟩

/-- Claim C6 as amended: in stage `awaiting_slot_selection`, a 1-based integer
index into the shown slot list reserves the slot, creates an appointment dated
today and moves the stage to "general" when in range — but the
`selected_doctor` field is retained, not cleared; an out-of-range index gets
the invalid-slot reply with the state unchanged. -/
theorem claim_C6 (n : Int) (slots : List TimeSlot) (today patient_id : Nat)
    (st : ConversationState) (doc : Doctor) (hdoc : st.selected_doctor = some doc) :
    (1 ≤ n → n ≤ (slots.length : Int) →
      handle_slot_selection n slots today patient_id st =
        .ok { state := { st with stage := "general" }
              reserved_slot := some ((slots.getD (n - 1).toNat default).time_slot_id, patient_id)
              booked := some { doctor_id := doc.user_id
                               time_slot_id := (slots.getD (n - 1).toNat default).time_slot_id
                               patient_id := patient_id
                               appointment_date := today }
              reply := ChatbotReply.APPOINTMENT_BOOKED })
    ∧ ((n < 1 ∨ (slots.length : Int) < n) →
      handle_slot_selection n slots today patient_id st =
        .ok { state := st
              reserved_slot := none
              booked := none
              reply := ChatbotReply.INVALID_SLOT_SELECTION }) := by
  constructor
  · intro h1 h2
    simp only [handle_slot_selection, hdoc]
    rw [if_pos (by omega)]
  · intro h
    simp only [handle_slot_selection, hdoc]
    rw [if_neg (by omega)]

/-- Witness for C6: out-of-range selection "5" with only 3 slots. -/
theorem claim_C6_witness :
    handle_slot_selection 5
        [⟨10, ⟨9, 0⟩, ⟨10, 0⟩⟩, ⟨11, ⟨10, 0⟩, ⟨11, 0⟩⟩, ⟨12, ⟨11, 0⟩, ⟨12, 0⟩⟩]
        20 7
        ⟨"awaiting_slot_selection", none, some ⟨3, "Ada", "Lovelace", "a@b"⟩, none, none, none⟩
      = .ok { state := ⟨"awaiting_slot_selection", none, some ⟨3, "Ada", "Lovelace", "a@b"⟩, none, none, none⟩
              reserved_slot := none
              booked := none
              reply := ChatbotReply.INVALID_SLOT_SELECTION } :=
  (claim_C6 5 [⟨10, ⟨9, 0⟩, ⟨10, 0⟩⟩, ⟨11, ⟨10, 0⟩, ⟨11, 0⟩⟩, ⟨12, ⟨11, 0⟩, ⟨12, 0⟩⟩] 20 7
      ⟨"awaiting_slot_selection", none, some ⟨3, "Ada", "Lovelace", "a@b"⟩, none, none, none⟩
      ⟨3, "Ada", "Lovelace", "a@b"⟩ rfl).2 (by decide)

/-- `set.add` never produces an empty set. -/
theorem set_add_ne_nil (cs : List Nat) (c : Nat) : set_add cs c ≠ [] := by
  unfold set_add
  by_cases h : cs.contains c
  · rw [if_pos h]
    intro hnil
    subst hnil
    simp at h
  · rw [if_neg h]
    simp

/-- `connect` preserves the no-empty-set invariant. -/
theorem connect_WF (reg : Registry) (d c : Nat) (h : RegistryWF reg) :
    RegistryWF (connect reg d c) := by
  unfold connect
  cases hl : Registry.lookup reg d with
  | none =>
    intro e he
    rcases List.mem_append.mp he with he | he
    · exact h e he
    · have heq : e = (d, set_add [] c) := by simpa using he
      rw [heq]
      exact set_add_ne_nil [] c
  | some cs =>
    intro e he
    unfold Registry.update at he
    rcases List.mem_map.mp he with ⟨e0, he0, heq⟩
    by_cases hd : (e0.1 == d) = true
    · rw [if_pos hd] at heq
      rw [← heq]
      exact set_add_ne_nil cs c
    · rw [if_neg hd] at heq
      rw [← heq]
      exact h e0 he0

/-- `disconnect` preserves the no-empty-set invariant: an entry emptied by the
removal is pruned, a surviving entry keeps a non-empty set. -/
theorem disconnect_WF (reg : Registry) (d c : Nat) (h : RegistryWF reg) :
    RegistryWF (disconnect reg d c) := by
  unfold disconnect
  cases hl : Registry.lookup reg d with
  | none => exact h
  | some cs =>
    dsimp only
    by_cases hc : cs.contains c
    · rw [if_pos hc]
      by_cases he : (cs.erase c).isEmpty = true
      · rw [if_pos he]
        intro e hee
        exact h e (List.mem_of_mem_filter hee)
      · rw [if_neg he]
        intro e hee
        unfold Registry.update at hee
        rcases List.mem_map.mp hee with ⟨e0, he0, heq⟩
        by_cases hd : (e0.1 == d) = true
        · rw [if_pos hd] at heq
          rw [← heq]
          simpa [List.isEmpty_iff] using he
        · rw [if_neg hd] at heq
          rw [← heq]
          exact h e0 he0
    · rw [if_neg hc]
      exact h

/-- Each registry operation preserves the invariant. -/
theorem RegistryOp_apply_WF (reg : Registry) (op : RegistryOp) (h : RegistryWF reg) :
    RegistryWF (RegistryOp.apply reg op) := by
  cases op with
  | conn d c => exact connect_WF reg d c h
  | disc d c => exact disconnect_WF reg d c h

/-- Folding any operation sequence preserves the invariant. -/
theorem foldl_apply_WF :
    ∀ (ops : List RegistryOp) (reg : Registry), RegistryWF reg →
      RegistryWF (ops.foldl RegistryOp.apply reg) := by
  intro ops
  induction ops with
  | nil => intro reg h; exact h
  | cons op rest ih =>
    intro reg h
    exact ih _ (RegistryOp_apply_WF reg op h)

/-- Removing a recipient's last channel deletes the recipient's entry. -/
theorem disconnect_prune (reg : Registry) (d c : Nat) (cs : List Nat)
    (hl : Registry.lookup reg d = some cs) (hc : c ∈ cs) (he : cs.erase c = []) :
    Registry.lookup (disconnect reg d c) d = none := by
  unfold disconnect
  rw [hl]
  dsimp only
  rw [if_pos (by simpa using hc)]
  rw [he]
  show Registry.lookup (List.filter (fun e => !(e.1 == d)) reg) d = none
  unfold Registry.lookup
  rw [List.find?_eq_none.mpr ?_]
  · rfl
  · intro x hx
    have hmem := List.of_mem_filter hx
    simp at hmem
    simp [hmem]

/-- Length of `d` concatenated copies of a block. -/
theorem flatten_replicate_length {α : Type _} (b : List α) :
    ∀ d : Nat, ((List.replicate d b).flatten).length = d * b.length := by
  intro d
  induction d with
  | zero => simp
  | succ d ih =>
    rw [List.replicate_succ, List.flatten_cons, List.length_append, ih, Nat.succ_mul]
    omega

/-- Indexing into `d` concatenated copies of a block wraps modulo the block
length. -/
theorem flatten_replicate_getD {α : Type _} [Inhabited α] (b : List α) :
    ∀ (d i : Nat), i < d * b.length →
      ((List.replicate d b).flatten).getD i default = b.getD (i % b.length) default := by
  intro d
  induction d with
  | zero => intro i hi; simp at hi
  | succ d ih =>
    intro i hi
    rw [List.replicate_succ, List.flatten_cons]
    by_cases hlt : i < b.length
    · rw [List.getD_append _ _ _ _ hlt, Nat.mod_eq_of_lt hlt]
    · push_neg at hlt
      rw [List.getD_append_right _ _ _ _ hlt]
      rw [Nat.succ_mul] at hi
      have hi2 : i - b.length < d * b.length := by omega
      rw [ih (i - b.length) hi2, Nat.mod_eq_sub_mod hlt]

/-- `getD` inside the bounds commutes with `map`. -/
theorem getD_map_lt {α β : Type _} [Inhabited α] [Inhabited β] (g : α → β) (l : List α)
    (j : Nat) (h : j < l.length) :
    (l.map g).getD j default = g (l.getD j default) := by
  rw [List.getD_eq_getElem?_getD, List.getElem?_map, List.getElem?_eq_getElem h,
    List.getD_eq_getElem?_getD, List.getElem?_eq_getElem h]
  rfl

/-- The scheduling day loop appends, per day, one inactive reminder for each
generated time. -/
theorem create_reminders_loop_ok (p : Prescription) (ts : List TimeOfDay)
    (hts : generate_reminder_times p.frequency = .ok ts) :
    ∀ (d : Nat) (acc : List Reminder),
      create_reminders_loop p d acc =
        .ok (acc ++ (List.replicate d (ts.map (inactive_reminder p))).flatten) := by
  intro d
  induction d with
  | zero => intro acc; simp [create_reminders_loop]
  | succ d ih =>
    intro acc
    simp only [create_reminders_loop, hts, ih, List.replicate_succ, List.flatten_cons,
      List.append_assoc]

/-- Claim C2: for frequency in {1,2,3} and duration in [1,30],
`create_reminders_for_prescription` succeeds and produces exactly
`frequency * duration` reminders — all Inactive, with date unset, owned by the
prescription — whose times cycle through the fixed table
1 ↦ {09:00}, 2 ↦ {09:00, 18:00}, 3 ↦ {09:00, 13:00, 18:00}; for any other
frequency it fails with the unsupported-frequency `ValueError` and produces
nothing. -/
theorem claim_C2 (p : Prescription) (hdur1 : 1 ≤ p.duration) (hdur30 : p.duration ≤ 30) :
    ((p.frequency = 1 ∨ p.frequency = 2 ∨ p.frequency = 3) →
      ∃ ts rs,
        generate_reminder_times p.frequency = .ok ts
        ∧ (p.frequency = 1 → ts = [⟨9, 0⟩])
        ∧ (p.frequency = 2 → ts = [⟨9, 0⟩, ⟨18, 0⟩])
        ∧ (p.frequency = 3 → ts = [⟨9, 0⟩, ⟨13, 0⟩, ⟨18, 0⟩])
        ∧ ts.length = p.frequency
        ∧ create_reminders_for_prescription p = .ok rs
        ∧ rs.length = p.frequency * p.duration
        ∧ (∀ r ∈ rs, r.status = ReminderStatus.INACTIVE ∧ r.reminder_date = none
            ∧ r.prescription_id = p.prescription_id)
        ∧ (∀ i, i < rs.length →
            rs.getD i default = inactive_reminder p (ts.getD (i % p.frequency) default)))
    ∧ (p.frequency ≠ 1 → p.frequency ≠ 2 → p.frequency ≠ 3 →
        create_reminders_for_prescription p
          = .error "ValueError: Unsupported frequency value: {frequency}") := by
  constructor
  · intro hf
    have hfpos : 0 < p.frequency := by rcases hf with h | h | h <;> omega
    obtain ⟨ts, hgen, hlen_ts, ht1, ht2, ht3⟩ :
        ∃ ts, generate_reminder_times p.frequency = .ok ts ∧ ts.length = p.frequency
          ∧ (p.frequency = 1 → ts = [⟨9, 0⟩])
          ∧ (p.frequency = 2 → ts = [⟨9, 0⟩, ⟨18, 0⟩])
          ∧ (p.frequency = 3 → ts = [⟨9, 0⟩, ⟨13, 0⟩, ⟨18, 0⟩]) := by
      rcases hf with h | h | h <;> rw [h] <;>
        exact ⟨_, rfl, rfl, by simp [h], by simp [h], by simp [h]⟩
    have hblen : (ts.map (inactive_reminder p)).length = p.frequency := by
      rw [List.length_map, hlen_ts]
    refine ⟨ts, (List.replicate p.duration (ts.map (inactive_reminder p))).flatten,
      hgen, ht1, ht2, ht3, hlen_ts, ?_, ?_, ?_, ?_⟩
    · unfold create_reminders_for_prescription
      rw [create_reminders_loop_ok p ts hgen p.duration [], List.nil_append]
    · rw [flatten_replicate_length, hblen, Nat.mul_comm]
    · intro r hr
      rcases List.mem_flatten.mp hr with ⟨l, hl, hrl⟩
      rcases List.mem_replicate.mp hl with ⟨-, rfl⟩
      rcases List.mem_map.mp hrl with ⟨t, ht, rfl⟩
      exact ⟨rfl, rfl, rfl⟩
    · intro i hi
      rw [flatten_replicate_length, hblen, Nat.mul_comm] at hi
      have hi' : i < p.duration * (ts.map (inactive_reminder p)).length := by
        rw [hblen, Nat.mul_comm]; exact hi
      rw [flatten_replicate_getD _ _ _ hi', hblen]
      exact getD_map_lt (inactive_reminder p) ts (i % p.frequency)
        (by rw [hlen_ts]; exact Nat.mod_lt _ hfpos)
  · intro h1 h2 h3
    obtain ⟨d', hd'⟩ : ∃ d', p.duration = d' + 1 := ⟨p.duration - 1, by omega⟩
    have hgen : generate_reminder_times p.frequency
        = .error "ValueError: Unsupported frequency value: {frequency}" := by
      unfold generate_reminder_times
      rw [if_neg h1, if_neg h2, if_neg h3]
    unfold create_reminders_for_prescription
    rw [hd']
    simp only [create_reminders_loop, hgen]

/-- Witness for C2: an unsupported frequency (5) with duration 3 fails. -/
theorem claim_C2_witness :
    create_reminders_for_prescription ⟨1, "Amox", 5, 3, true⟩
      = .error "ValueError: Unsupported frequency value: {frequency}" :=
  (claim_C2 ⟨1, "Amox", 5, 3, true⟩ (by decide) (by decide)).2
    (by decide) (by decide) (by decide)

/-- Unfolding one outer iteration of the nested activation loops. -/
theorem activate_days_succ (f d : Nat) :
    activate_days f (d + 1) = activate_days f d ++ List.replicate f d := by
  unfold activate_days
  rw [List.range_succ, List.flatMap_append, List.flatMap_cons, List.flatMap_nil,
    List.append_nil]

/-- The day sequence visited by the nested loops has `frequency * duration`
entries. -/
theorem activate_days_length (f : Nat) : ∀ d : Nat, (activate_days f d).length = f * d := by
  intro d
  induction d with
  | zero => rfl
  | succ d ih =>
    rw [activate_days_succ, List.length_append, ih, List.length_replicate, Nat.mul_succ]

/-- The `j`-th entry of the day sequence is `j / frequency`. -/
theorem activate_days_getD (f : Nat) :
    ∀ d j : Nat, j < f * d → (activate_days f d).getD j 0 = j / f := by
  intro d
  induction d with
  | zero => intro j hj; simp at hj
  | succ d ih =>
    intro j hj
    rw [activate_days_succ]
    by_cases hj' : j < f * d
    · rw [List.getD_append _ _ _ _ (by rw [activate_days_length]; exact hj'), ih j hj']
    · push_neg at hj'
      rw [List.getD_append_right _ _ _ _ (by rw [activate_days_length]; exact hj'),
        activate_days_length]
      rw [Nat.mul_succ] at hj
      have hrep : j - f * d < f := by omega
      rw [List.getD_eq_getElem?_getD, List.getElem?_replicate, if_pos hrep]
      have h1 : d * f ≤ j := by rw [Nat.mul_comm]; exact hj'
      have h2 : j < (d + 1) * f := by
        rw [Nat.succ_mul]
        have hcm : f * d = d * f := Nat.mul_comm f d
        omega
      exact (Nat.div_eq_of_lt_le h1 h2).symm

/-- Folding the activation step over a day sequence: the result keeps the
list length, and element `i` is assigned (with the day found at position
`i - idx` of the sequence) exactly when the running index, which starts at
`idx` and never passes `count`, reaches it. -/
theorem activate_fold_spec (tomorrow count : Nat) :
    ∀ (ds : List Nat) (rs : List Reminder) (idx : Nat), count ≤ rs.length →
      ((ds.foldl (activate_step tomorrow count) (rs, idx)).1.length = rs.length
      ∧ ∀ i, (ds.foldl (activate_step tomorrow count) (rs, idx)).1.getD i default =
          if idx ≤ i ∧ i < count ∧ i - idx < ds.length then
            activate_assign tomorrow (ds.getD (i - idx) 0) (rs.getD i default)
          else rs.getD i default) := by
  intro ds
  induction ds with
  | nil =>
    intro rs idx hcount
    refine ⟨rfl, ?_⟩
    intro i
    rw [if_neg (fun h => by simpa using h.2.2)]
    rfl
  | cons day rest ih =>
    intro rs idx hcount
    rw [List.foldl_cons]
    by_cases hlt : idx < count
    · have hstep : activate_step tomorrow count (rs, idx) day
          = (rs.set idx (activate_assign tomorrow day (rs.getD idx default)), idx + 1) := by
        unfold activate_step
        rw [if_pos hlt]
      rw [hstep]
      have hlen' : count ≤ (rs.set idx (activate_assign tomorrow day (rs.getD idx default))).length := by
        rw [List.length_set]
        exact hcount
      obtain ⟨ihlen, ihget⟩ := ih _ (idx + 1) hlen'
      constructor
      · rw [ihlen, List.length_set]
      · intro i
        rw [ihget i]
        by_cases hi : i = idx
        · subst hi
          rw [if_neg (by omega)]
          have hidx : i < rs.length := Nat.lt_of_lt_of_le hlt hcount
          rw [List.getD_eq_getElem?_getD, List.getElem?_set_self hidx]
          rw [if_pos ⟨Nat.le_refl i, hlt, by simp⟩]
          simp
        · have hne : idx ≠ i := fun h => hi h.symm
          have hset : (rs.set idx (activate_assign tomorrow day (rs.getD idx default))).getD i default
              = rs.getD i default := by
            rw [List.getD_eq_getElem?_getD, List.getElem?_set_ne hne,
              ← List.getD_eq_getElem?_getD]
          rw [hset]
          by_cases hc2 : idx ≤ i
          · have hgt : idx + 1 ≤ i := by omega
            by_cases hc3 : i < count
            · by_cases hc4 : i - (idx + 1) < rest.length
              · rw [if_pos ⟨hgt, hc3, hc4⟩,
                  if_pos ⟨hc2, hc3, by simp only [List.length_cons]; omega⟩]
                have heq : i - idx = (i - (idx + 1)) + 1 := by omega
                rw [heq, List.getD_cons_succ]
              · rw [if_neg (fun hc => hc4 hc.2.2),
                  if_neg (fun hc => by
                    have hlen2 := hc.2.2
                    simp only [List.length_cons] at hlen2
                    exact hc4 (by omega))]
            · rw [if_neg (fun hc => hc3 hc.2.1), if_neg (fun hc => hc3 hc.2.1)]
          · rw [if_neg (fun hc => hc2 (by omega)), if_neg (fun hc => hc2 hc.1)]
    · have hstep : activate_step tomorrow count (rs, idx) day = (rs, idx) := by
        unfold activate_step
        rw [if_neg hlt]
      rw [hstep]
      obtain ⟨ihlen, ihget⟩ := ih rs idx hcount
      refine ⟨ihlen, ?_⟩
      intro i
      rw [ihget i]
      rw [if_neg (fun hc => hlt (Nat.lt_of_le_of_lt hc.1 hc.2.1)),
        if_neg (fun hc => hlt (Nat.lt_of_le_of_lt hc.1 hc.2.1))]

/-- Claim C1: `activate_reminders` assigns the `i`-th reminder (in list order,
for `i < min(len(reminders), frequency*duration)`) the date
`tomorrow + ⌊i / frequency⌋` and status Active, leaves every later reminder
untouched (on a count mismatch it proceeds deterministically over the shorter
length; the embedding is total, so the mismatch never raises), and the
assigned dates are non-decreasing in creation order. -/
theorem claim_C1 (tomorrow : Nat) (rs : List Reminder) (p : Prescription) :
    (activate_reminders tomorrow rs p).length = rs.length
    ∧ (∀ i, i < min rs.length (p.frequency * p.duration) →
        (activate_reminders tomorrow rs p).getD i default =
          { (rs.getD i default) with
              reminder_date := some (tomorrow + i / p.frequency)
              status := ReminderStatus.ACTIVE })
    ∧ (∀ i, min rs.length (p.frequency * p.duration) ≤ i →
        (activate_reminders tomorrow rs p).getD i default = rs.getD i default)
    ∧ (∀ i j di dj, i ≤ j →
        i < min rs.length (p.frequency * p.duration) →
        j < min rs.length (p.frequency * p.duration) →
        ((activate_reminders tomorrow rs p).getD i default).reminder_date = some di →
        ((activate_reminders tomorrow rs p).getD j default).reminder_date = some dj →
        di ≤ dj) := by
  have hfold : activate_reminders tomorrow rs p
      = ((activate_days p.frequency p.duration).foldl
          (activate_step tomorrow rs.length) (rs, 0)).1 := rfl
  obtain ⟨hlen, hget⟩ :=
    activate_fold_spec tomorrow rs.length (activate_days p.frequency p.duration) rs 0
      (Nat.le_refl rs.length)
  have key : ∀ i, i < min rs.length (p.frequency * p.duration) →
      (activate_reminders tomorrow rs p).getD i default =
        { (rs.getD i default) with
            reminder_date := some (tomorrow + i / p.frequency)
            status := ReminderStatus.ACTIVE } := by
    intro i hi
    have hiL : i < rs.length := Nat.lt_of_lt_of_le hi (Nat.min_le_left _ _)
    have hifd : i < p.frequency * p.duration := Nat.lt_of_lt_of_le hi (Nat.min_le_right _ _)
    rw [hfold, hget i,
      if_pos ⟨Nat.zero_le i, hiL, by rw [Nat.sub_zero, activate_days_length]; exact hifd⟩,
      Nat.sub_zero, activate_days_getD p.frequency p.duration i hifd]
    rfl
  refine ⟨?_, key, ?_, ?_⟩
  · rw [hfold, hlen]
  · intro i hi
    rw [hfold, hget i,
      if_neg (fun hc => by
        have hc3 := hc.2.2
        rw [Nat.sub_zero, activate_days_length] at hc3
        exact absurd (Nat.lt_min.mpr ⟨hc.2.1, hc3⟩) (Nat.not_lt.mpr hi))]
  · intro i j di dj hij hi hj hdi hdj
    rw [key i hi] at hdi
    rw [key j hj] at hdj
    simp only [Option.some.injEq] at hdi hdj
    have hdiv := Nat.div_le_div_right (c := p.frequency) hij
    omega

/-- Witness for C1: frequency 2, duration 3, six reminders — the third
reminder (index 2) is dated tomorrow + 1 and Active. -/
theorem claim_C1_witness :
    ((activate_reminders 100 (List.replicate 6 ⟨1, ⟨9, 0⟩, none, ReminderStatus.INACTIVE⟩)
        ⟨1, "Amox", 2, 3, true⟩).getD 2 default).reminder_date = some 101 := by
  have h := (claim_C1 100 (List.replicate 6 ⟨1, ⟨9, 0⟩, none, ReminderStatus.INACTIVE⟩)
      ⟨1, "Amox", 2, 3, true⟩).2.1 2 (by decide)
  rw [h]
  rfl

/-- Claim C8: starting from the empty registry, every sequence of connect and
disconnect calls maintains the invariant that no recipient key maps to an
empty channel set; moreover disconnecting a recipient's last channel removes
the recipient's entry entirely. -/
theorem claim_C8 :
    (∀ ops : List RegistryOp, RegistryWF (run_ops ops))
    ∧ (∀ (reg : Registry) (d c : Nat) (cs : List Nat),
        Registry.lookup reg d = some cs → c ∈ cs → cs.erase c = [] →
        Registry.lookup (disconnect reg d c) d = none) := by
  constructor
  · intro ops
    exact foldl_apply_WF ops [] (fun e he => absurd he (List.not_mem_nil e))
  · intro reg d c cs hl hc he
    exact disconnect_prune reg d c cs hl hc he

/-- Witness for C8 at a concrete operation sequence and registry. -/
theorem claim_C8_witness :
    RegistryWF (run_ops [RegistryOp.conn 1 5, RegistryOp.conn 1 6, RegistryOp.disc 1 5])
    ∧ Registry.lookup (disconnect [(1, [5])] 1 5) 1 = none :=
  ⟨claim_C8.1 [RegistryOp.conn 1 5, RegistryOp.conn 1 6, RegistryOp.disc 1 5],
   claim_C8.2 [(1, [5])] 1 5 [5] rfl (by simp) rfl⟩

end Aibot
